import Mathlib

/-
Verification of the Cesium worker geometry modules:
shallow embedding of

  * src/unnamed/part_000                     (createCircleOutlineGeometry.js)
  * Build/CesiumUnminified/Workers/createSphereOutlineGeometry.js
  * Build/CesiumUnminified/Workers/createCylinderGeometry.js
  * Build/CesiumUnminified/Workers/createEllipseGeometry.js
  * Build/CesiumUnminified/Workers/createGeometry.js

JS numbers are modelled as rationals: pack/unpack only copy numbers
between fields and array slots (no arithmetic happens on them), so the
exact round-trip behaviour of the code is faithfully represented.
Helper modules that are not part of the source tree
(EllipseOutlineGeometry, EllipsoidOutlineGeometry, the `when` and
`Check` utilities) are modelled from the spec, as marked on each
definition.  JS in-place mutation is modelled by explicit state
passing: functions return the updated objects next to their result.
-/

namespace Cesium

/-- Cartesian3 value: a triple of (JS) numbers. -/
structure Cartesian3 where
  x : ℚ
  y : ℚ
  z : ℚ
deriving DecidableEq

/-- Modelled from the spec: reference-frame values are "passed through a
clone operation (value semantics, not identity)"; in the value-semantics
embedding clone rebuilds the same value. -/
def Cartesian3.clone (c : Cartesian3) : Cartesian3 :=
  { x := c.x, y := c.y, z := c.z }

/-- Ellipsoid value: modelled by its three radii, the only numeric data
of it that crosses the packing boundary. -/
structure Ellipsoid where
  radii : Cartesian3
deriving DecidableEq

/-- Modelled from the spec: clone of an ellipsoid copies its numeric value. -/
def Ellipsoid.clone (e : Ellipsoid) : Ellipsoid :=
  { radii := Cartesian3.clone e.radii }

/-- The WGS84 ellipsoid radii (default ellipsoid of the circle geometry). -/
def Ellipsoid.WGS84 : Ellipsoid :=
  { radii := { x := 6378137, y := 6378137, z := (63567523142451793 : ℚ) / 10000000000 } }

/-- The unit sphere ellipsoid, used to initialise the unpack scratch options. -/
def Ellipsoid.UNIT_SPHERE : Ellipsoid :=
  { radii := { x := 1, y := 1, z := 1 } }

/-- Conditions raised by the embedded code: `invalidArgument` models a
DeveloperError thrown by a Check precondition, `typeError` models a
JS runtime TypeError (e.g. reading a property of undefined). -/
inductive CesiumError where
  | invalidArgument (msg : String)
  | typeError (msg : String)
deriving DecidableEq

/-- Default angular granularity of the ellipse outline options, 0.02 radians. -/
def defaultGranularity : ℚ := 1 / 50

/-- Read slot `i` of a packed JS number array; an out-of-range read
(never exercised by the packing protocol, which reads exactly
`packedLength` slots it wrote) is modelled as 0. -/
def readAt (arr : List ℚ) (i : Nat) : ℚ :=
  arr.getD i 0

/-- Write the consecutive values `vals` into `arr` starting at `start`,
growing the array as JS assignment does (holes modelled as 0). -/
def writeSeq (arr : List ℚ) (start : Nat) (vals : List ℚ) : List ℚ :=
  (arr ++ List.replicate (start - arr.length) 0).take start ++ vals ++ arr.drop (start + vals.length)

/-- EllipseOutlineGeometry state: the canonical "ellipse-like" base
description. Field names follow the source. -/
structure EllipseOutlineGeometry where
  _center : Cartesian3
  _semiMajorAxis : ℚ
  _semiMinorAxis : ℚ
  _ellipsoid : Ellipsoid
  _height : ℚ
  _extrudedHeight : ℚ
  _granularity : ℚ
  _numberOfVerticalLines : ℚ
deriving DecidableEq

/-- Constructor options for EllipseOutlineGeometry; absent JS properties
are modelled as `none`. -/
structure EllipseOptions where
  center : Option Cartesian3 := none
  semiMajorAxis : Option ℚ := none
  semiMinorAxis : Option ℚ := none
  ellipsoid : Option Ellipsoid := none
  height : Option ℚ := none
  extrudedHeight : Option ℚ := none
  granularity : Option ℚ := none
  numberOfVerticalLines : Option ℚ := none

/-- Modelled from the spec: the EllipseOutlineGeometry constructor (its
module is not under src/) "validates required parameters (fails with an
InvalidArgument condition if a mandatory numeric parameter is absent
...), applies defaults for optional parameters".  Required: center and
the two semi-axes; defaults per the documented option defaults of the
circle wrapper: ellipsoid WGS84, height 0, extrudedHeight 0,
granularity 0.02, numberOfVerticalLines 16.  Reference-frame values
cross the boundary through a clone. -/
def EllipseOutlineGeometry.make (o : EllipseOptions) :
    Except CesiumError EllipseOutlineGeometry :=
  match o.center, o.semiMajorAxis, o.semiMinorAxis with
  | some c, some a, some b =>
      .ok { _center := Cartesian3.clone c
          , _semiMajorAxis := a
          , _semiMinorAxis := b
          , _ellipsoid := Ellipsoid.clone (o.ellipsoid.getD Ellipsoid.WGS84)
          , _height := o.height.getD 0
          , _extrudedHeight := o.extrudedHeight.getD 0
          , _granularity := o.granularity.getD defaultGranularity
          , _numberOfVerticalLines := o.numberOfVerticalLines.getD 16 }
  | _, _, _ =>
      .error (.invalidArgument "EllipseOutlineGeometry: a required option is undefined")

/-- Modelled from the spec: `packedLength` is "a constant derived from
its base description's packed length"; the base ellipse description
packs center (3), ellipsoid radii (3) and six scalars. -/
def EllipseOutlineGeometry.packedLength : Nat := 12

/-- The numeric fields of an ellipse outline description in packing order. -/
def EllipseOutlineGeometry.fieldList (e : EllipseOutlineGeometry) : List ℚ :=
  [e._center.x, e._center.y, e._center.z,
   e._ellipsoid.radii.x, e._ellipsoid.radii.y, e._ellipsoid.radii.z,
   e._semiMajorAxis, e._semiMinorAxis, e._height, e._granularity,
   e._extrudedHeight, e._numberOfVerticalLines]

/-- Modelled from the spec: `pack(value, targetArray, startingIndex)`
"writes the variant's canonical-base numeric fields into targetArray
starting at startingIndex ... returns the same array reference". -/
def EllipseOutlineGeometry.pack (value : EllipseOutlineGeometry) (array : List ℚ)
    (startingIndex : Nat) : List ℚ :=
  writeSeq array startingIndex value.fieldList

/-- Modelled from the spec: `unpack(sourceArray, startingIndex, result)`
"reads exactly packedLength numbers starting at startingIndex and
reconstructs a canonical base description"; the supplied result scratch
instance is completely overwritten, hence ignored in value semantics. -/
def EllipseOutlineGeometry.unpack (array : List ℚ) (startingIndex : Nat)
    (_result : EllipseOutlineGeometry) : EllipseOutlineGeometry :=
  { _center := { x := readAt array startingIndex
               , y := readAt array (startingIndex + 1)
               , z := readAt array (startingIndex + 2) }
  , _ellipsoid := { radii := { x := readAt array (startingIndex + 3)
                             , y := readAt array (startingIndex + 4)
                             , z := readAt array (startingIndex + 5) } }
  , _semiMajorAxis := readAt array (startingIndex + 6)
  , _semiMinorAxis := readAt array (startingIndex + 7)
  , _height := readAt array (startingIndex + 8)
  , _granularity := readAt array (startingIndex + 9)
  , _extrudedHeight := readAt array (startingIndex + 10)
  , _numberOfVerticalLines := readAt array (startingIndex + 11) }

/-- Constructor options of CircleOutlineGeometry (part_000 lines 55-75). -/
structure CircleOptions where
  center : Option Cartesian3 := none
  radius : Option ℚ := none
  ellipsoid : Option Ellipsoid := none
  height : Option ℚ := none
  extrudedHeight : Option ℚ := none
  granularity : Option ℚ := none
  numberOfVerticalLines : Option ℚ := none

/-- CircleOutlineGeometry instance state (part_000): wraps the canonical
ellipse base description plus the worker name. -/
structure CircleOutlineGeometry where
  _ellipseGeometry : EllipseOutlineGeometry
  _workerName : String
deriving DecidableEq

/-- Message of the Check.typeOf.number failure for a missing radius. -/
def radiusRequiredMsg : String :=
  "Expected radius to be typeof number, actual value was undefined"

/-- The CircleOutlineGeometry constructor (part_000 lines 55-75):
defaults absent options to the empty object, checks that radius is a
number (Check.typeOf.number throws a DeveloperError when it is absent),
then derives the canonical ellipse description with
semiMajorAxis = semiMinorAxis = radius and records the worker name. -/
def CircleOutlineGeometry.make (options : Option CircleOptions) :
    Except CesiumError CircleOutlineGeometry :=
  let opts := options.getD {}
  match opts.radius with
  | none => .error (.invalidArgument radiusRequiredMsg)
  | some radius =>
      (EllipseOutlineGeometry.make
        { center := opts.center
        , semiMajorAxis := some radius
        , semiMinorAxis := some radius
        , ellipsoid := opts.ellipsoid
        , height := opts.height
        , extrudedHeight := opts.extrudedHeight
        , granularity := opts.granularity
        , numberOfVerticalLines := opts.numberOfVerticalLines }).map
        (fun e => { _ellipseGeometry := e, _workerName := "createCircleOutlineGeometry" })

/-- CircleOutlineGeometry.packedLength delegates to the base description. -/
def CircleOutlineGeometry.packedLength : Nat :=
  EllipseOutlineGeometry.packedLength

/-- CircleOutlineGeometry.pack (part_000 lines 92-101): the Check on
`value` always passes in the typed embedding; packing delegates to the
base ellipse description. -/
def CircleOutlineGeometry.pack (value : CircleOutlineGeometry) (array : List ℚ)
    (startingIndex : Nat) : List ℚ :=
  EllipseOutlineGeometry.pack value._ellipseGeometry array startingIndex

/-- The module-level scratchOptions object of part_000 (lines 108-118):
one mutable options record shared by every unpack call.  Its center and
ellipsoid slots always hold values (they are cloned into); the scalar
slots start out undefined. -/
structure CircleScratchOptions where
  center : Cartesian3
  radius : Option ℚ
  ellipsoid : Ellipsoid
  height : Option ℚ
  extrudedHeight : Option ℚ
  granularity : Option ℚ
  numberOfVerticalLines : Option ℚ
  semiMajorAxis : Option ℚ
  semiMinorAxis : Option ℚ

/-- The module-level mutable state of part_000 used by unpack: the
scratch ellipse instance and the scratch options record. -/
structure CircleScratch where
  scratchEllipseGeometry : EllipseOutlineGeometry
  scratchOptions : CircleScratchOptions

/-- Initial value of scratchEllipseGeometry (part_000 lines 103-107):
an ellipse at the origin with unit semi-axes and default options. -/
def initialScratchEllipseGeometry : EllipseOutlineGeometry :=
  { _center := { x := 0, y := 0, z := 0 }
  , _semiMajorAxis := 1
  , _semiMinorAxis := 1
  , _ellipsoid := Ellipsoid.WGS84
  , _height := 0
  , _extrudedHeight := 0
  , _granularity := defaultGranularity
  , _numberOfVerticalLines := 16 }

/-- Initial value of scratchOptions (part_000 lines 108-118). -/
def initialCircleScratchOptions : CircleScratchOptions :=
  { center := { x := 0, y := 0, z := 0 }
  , radius := none
  , ellipsoid := Ellipsoid.clone Ellipsoid.UNIT_SPHERE
  , height := none
  , extrudedHeight := none
  , granularity := none
  , numberOfVerticalLines := none
  , semiMajorAxis := none
  , semiMinorAxis := none }

/-- Initial module state of part_000. -/
def initialCircleScratch : CircleScratch :=
  { scratchEllipseGeometry := initialScratchEllipseGeometry
  , scratchOptions := initialCircleScratchOptions }

/-- View of the scratchOptions object as seen by the
CircleOutlineGeometry constructor (which reads exactly these fields). -/
def CircleScratchOptions.toCircleOptions (so : CircleScratchOptions) : CircleOptions :=
  { center := some so.center
  , radius := so.radius
  , ellipsoid := some so.ellipsoid
  , height := so.height
  , extrudedHeight := so.extrudedHeight
  , granularity := so.granularity
  , numberOfVerticalLines := so.numberOfVerticalLines }

/-- View of the scratchOptions object as seen by the
EllipseOutlineGeometry constructor (which reads exactly these fields). -/
def CircleScratchOptions.toEllipseOptions (so : CircleScratchOptions) : EllipseOptions :=
  { center := some so.center
  , semiMajorAxis := so.semiMajorAxis
  , semiMinorAxis := so.semiMinorAxis
  , ellipsoid := some so.ellipsoid
  , height := so.height
  , extrudedHeight := so.extrudedHeight
  , granularity := so.granularity
  , numberOfVerticalLines := so.numberOfVerticalLines }

/-- CircleOutlineGeometry.unpack (part_000 lines 128-156), with the
module-level scratch state passed and returned explicitly: unpacks the
base ellipse into the scratch instance, copies its fields into the
scratch options, then either constructs a fresh circle description
(result absent, using radius := semiMajorAxis) or rebuilds the supplied
result's base ellipse from the scratch options. -/
def CircleOutlineGeometry.unpack (s : CircleScratch) (array : List ℚ)
    (startingIndex : Nat) (result : Option CircleOutlineGeometry) :
    Except CesiumError (CircleOutlineGeometry × CircleScratch) :=
  let ellipseGeometry := EllipseOutlineGeometry.unpack array startingIndex s.scratchEllipseGeometry
  let so := s.scratchOptions
  let so := { so with
      center := Cartesian3.clone ellipseGeometry._center
    , ellipsoid := Ellipsoid.clone ellipseGeometry._ellipsoid
    , height := some ellipseGeometry._height
    , extrudedHeight := some ellipseGeometry._extrudedHeight
    , granularity := some ellipseGeometry._granularity
    , numberOfVerticalLines := some ellipseGeometry._numberOfVerticalLines }
  match result with
  | none =>
      let so := { so with radius := some ellipseGeometry._semiMajorAxis }
      (CircleOutlineGeometry.make (some so.toCircleOptions)).map
        (fun c => (c, { scratchEllipseGeometry := ellipseGeometry, scratchOptions := so }))
  | some r =>
      let so := { so with semiMajorAxis := some ellipseGeometry._semiMajorAxis
                        , semiMinorAxis := some ellipseGeometry._semiMinorAxis }
      (EllipseOutlineGeometry.make so.toEllipseOptions).map
        (fun e => ({ r with _ellipseGeometry := e },
                   { scratchEllipseGeometry := ellipseGeometry, scratchOptions := so }))

/-- CircleOutlineGeometry.createGeometry (part_000 lines 163-166):
delegates to the base ellipse createGeometry, which lives outside src/
and is abstracted as `ellipseCreate` (spec: pure function of the
description, `undefined` for degenerate input). -/
def CircleOutlineGeometry.createGeometry {G : Type}
    (ellipseCreate : EllipseOutlineGeometry → Option G)
    (circleGeometry : CircleOutlineGeometry) : Option G :=
  ellipseCreate circleGeometry._ellipseGeometry

/-- First argument of the worker entrypoint: either an
already-constructed description or a packed numeric array. -/
inductive PackedOrCircle where
  | desc (d : CircleOutlineGeometry)
  | packed (arr : List ℚ)

/-- The worker entrypoint createCircleOutlineGeometry (part_000 lines
168-179): when offset is defined the first argument is unpacked at that
offset; the description's center and ellipsoid are then re-cloned in
place, and the shape's createGeometry produces the result.  The final
description value and scratch state are returned next to the result to
expose the mutation footprint.  A mismatched argument shape (array
without offset, or description with offset) is the JS type confusion
branch, modelled as a typeError. -/
def createCircleOutlineGeometry {G : Type}
    (ellipseCreate : EllipseOutlineGeometry → Option G) (s : CircleScratch)
    (circleGeometry : PackedOrCircle) (offset : Option Nat) :
    Except CesiumError (Option G × CircleOutlineGeometry × CircleScratch) :=
  match offset, circleGeometry with
  | some off, .packed arr =>
      (CircleOutlineGeometry.unpack s arr off none).map (fun p =>
        let d := p.1
        let d' := { d with _ellipseGeometry :=
          { d._ellipseGeometry with
              _center := Cartesian3.clone d._ellipseGeometry._center
            , _ellipsoid := Ellipsoid.clone d._ellipseGeometry._ellipsoid } }
        (CircleOutlineGeometry.createGeometry ellipseCreate d', d', p.2))
  | none, .desc d =>
      let d' := { d with _ellipseGeometry :=
        { d._ellipseGeometry with
            _center := Cartesian3.clone d._ellipseGeometry._center
          , _ellipsoid := Ellipsoid.clone d._ellipseGeometry._ellipsoid } }
      .ok (CircleOutlineGeometry.createGeometry ellipseCreate d', d', s)
  | _, _ =>
      .error (.typeError "createCircleOutlineGeometry: argument does not match offset")

/-- EllipsoidOutlineGeometry state: the canonical "ellipsoid-like" base
description (radii plus tessellation counts). -/
structure EllipsoidOutlineGeometry where
  _radii : Cartesian3
  _stackPartitions : ℚ
  _slicePartitions : ℚ
  _subdivisions : ℚ
deriving DecidableEq

/-- Constructor options for EllipsoidOutlineGeometry. -/
structure EllipsoidOptions where
  radii : Option Cartesian3 := none
  stackPartitions : Option ℚ := none
  slicePartitions : Option ℚ := none
  subdivisions : Option ℚ := none

/-- Modelled from the spec: the EllipsoidOutlineGeometry constructor
(its module is not under src/) "applies defaults for optional
parameters"; the documented defaults of the sphere wrapper are radius 1
(so radii (1,1,1)), stackPartitions 10, slicePartitions 8,
subdivisions 200, and `new EllipsoidOutlineGeometry()` with no options
is legal (the scratch instance is created that way). -/
def EllipsoidOutlineGeometry.make (options : Option EllipsoidOptions) :
    EllipsoidOutlineGeometry :=
  let o := options.getD {}
  { _radii := Cartesian3.clone (o.radii.getD { x := 1, y := 1, z := 1 })
  , _stackPartitions := o.stackPartitions.getD 10
  , _slicePartitions := o.slicePartitions.getD 8
  , _subdivisions := o.subdivisions.getD 200 }

/-- Modelled from the spec: packed length of the ellipsoid base
description: radii (3) plus three tessellation scalars. -/
def EllipsoidOutlineGeometry.packedLength : Nat := 6

/-- The numeric fields of an ellipsoid outline description in packing order. -/
def EllipsoidOutlineGeometry.fieldList (e : EllipsoidOutlineGeometry) : List ℚ :=
  [e._radii.x, e._radii.y, e._radii.z,
   e._stackPartitions, e._slicePartitions, e._subdivisions]

/-- Modelled from the spec: pack for the ellipsoid base description. -/
def EllipsoidOutlineGeometry.pack (value : EllipsoidOutlineGeometry) (array : List ℚ)
    (startingIndex : Nat) : List ℚ :=
  writeSeq array startingIndex value.fieldList

/-- Modelled from the spec: unpack for the ellipsoid base description;
the result scratch instance is completely overwritten. -/
def EllipsoidOutlineGeometry.unpack (array : List ℚ) (startingIndex : Nat)
    (_result : EllipsoidOutlineGeometry) : EllipsoidOutlineGeometry :=
  { _radii := { x := readAt array startingIndex
              , y := readAt array (startingIndex + 1)
              , z := readAt array (startingIndex + 2) }
  , _stackPartitions := readAt array (startingIndex + 3)
  , _slicePartitions := readAt array (startingIndex + 4)
  , _subdivisions := readAt array (startingIndex + 5) }

/-- Constructor options of SphereOutlineGeometry
(createSphereOutlineGeometry.js lines 50-62). -/
structure SphereOptions where
  radius : Option ℚ := none
  stackPartitions : Option ℚ := none
  slicePartitions : Option ℚ := none
  subdivisions : Option ℚ := none

/-- SphereOutlineGeometry instance state: wraps the canonical ellipsoid
base description plus the worker name. -/
structure SphereOutlineGeometry where
  _ellipsoidGeometry : EllipsoidOutlineGeometry
  _workerName : String
deriving DecidableEq

/-- Message of the TypeError raised when the options object is absent. -/
def sphereOptionsUndefinedMsg : String :=
  "Cannot read properties of undefined (reading radius)"

/-- The SphereOutlineGeometry constructor (createSphereOutlineGeometry.js
lines 50-62): reads options.radius WITHOUT defaulting the options object
itself (`when.defaultValue(options.radius, 1.0)` throws a TypeError when
options is undefined), defaults radius to 1, builds radii
(radius, radius, radius) and delegates to the ellipsoid constructor. -/
def SphereOutlineGeometry.make (options : Option SphereOptions) :
    Except CesiumError SphereOutlineGeometry :=
  match options with
  | none => .error (.typeError sphereOptionsUndefinedMsg)
  | some o =>
      let radius := o.radius.getD 1
      let radii : Cartesian3 := { x := radius, y := radius, z := radius }
      .ok { _ellipsoidGeometry := EllipsoidOutlineGeometry.make (some
              { radii := some radii
              , stackPartitions := o.stackPartitions
              , slicePartitions := o.slicePartitions
              , subdivisions := o.subdivisions })
          , _workerName := "createSphereOutlineGeometry" }

/-- SphereOutlineGeometry.packedLength delegates to the base description. -/
def SphereOutlineGeometry.packedLength : Nat :=
  EllipsoidOutlineGeometry.packedLength

/-- SphereOutlineGeometry.pack (lines 77-94): delegates to the base
ellipsoid description. -/
def SphereOutlineGeometry.pack (value : SphereOutlineGeometry) (array : List ℚ)
    (startingIndex : Nat) : List ℚ :=
  EllipsoidOutlineGeometry.pack value._ellipsoidGeometry array startingIndex

/-- The module-level scratchOptions object of
createSphereOutlineGeometry.js (lines 97-103). -/
structure SphereScratchOptions where
  radius : Option ℚ
  radii : Cartesian3
  stackPartitions : Option ℚ
  slicePartitions : Option ℚ
  subdivisions : Option ℚ

/-- The module-level mutable state of createSphereOutlineGeometry.js
used by unpack. -/
structure SphereScratch where
  scratchEllipsoidGeometry : EllipsoidOutlineGeometry
  scratchOptions : SphereScratchOptions

/-- Initial module state of createSphereOutlineGeometry.js. -/
def initialSphereScratch : SphereScratch :=
  { scratchEllipsoidGeometry := EllipsoidOutlineGeometry.make none
  , scratchOptions :=
      { radius := none
      , radii := { x := 0, y := 0, z := 0 }
      , stackPartitions := none
      , slicePartitions := none
      , subdivisions := none } }

/-- View of the sphere scratchOptions as seen by the
SphereOutlineGeometry constructor (which reads exactly these fields). -/
def SphereScratchOptions.toSphereOptions (so : SphereScratchOptions) : SphereOptions :=
  { radius := so.radius
  , stackPartitions := so.stackPartitions
  , slicePartitions := so.slicePartitions
  , subdivisions := so.subdivisions }

/-- View of the sphere scratchOptions as seen by the
EllipsoidOutlineGeometry constructor (which reads exactly these fields). -/
def SphereScratchOptions.toEllipsoidOptions (so : SphereScratchOptions) : EllipsoidOptions :=
  { radii := some so.radii
  , stackPartitions := so.stackPartitions
  , slicePartitions := so.slicePartitions
  , subdivisions := so.subdivisions }

/-- SphereOutlineGeometry.unpack (createSphereOutlineGeometry.js lines
112-131), with the module-level scratch state passed and returned
explicitly: unpacks the base ellipsoid into the scratch instance, copies
its tessellation fields into the scratch options, then either constructs
a fresh sphere description (result absent, radius := radii.x) or clones
the radii into the scratch options and rebuilds the supplied result's
base ellipsoid. -/
def SphereOutlineGeometry.unpack (s : SphereScratch) (array : List ℚ)
    (startingIndex : Nat) (result : Option SphereOutlineGeometry) :
    Except CesiumError (SphereOutlineGeometry × SphereScratch) :=
  let ellipsoidGeometry := EllipsoidOutlineGeometry.unpack array startingIndex s.scratchEllipsoidGeometry
  let so := s.scratchOptions
  let so := { so with
      stackPartitions := some ellipsoidGeometry._stackPartitions
    , slicePartitions := some ellipsoidGeometry._slicePartitions
    , subdivisions := some ellipsoidGeometry._subdivisions }
  match result with
  | none =>
      let so := { so with radius := some ellipsoidGeometry._radii.x }
      (SphereOutlineGeometry.make (some so.toSphereOptions)).map
        (fun sph => (sph, { scratchEllipsoidGeometry := ellipsoidGeometry, scratchOptions := so }))
  | some r =>
      let so := { so with radii := Cartesian3.clone ellipsoidGeometry._radii }
      .ok ({ r with _ellipsoidGeometry := EllipsoidOutlineGeometry.make (some so.toEllipsoidOptions) },
           { scratchEllipsoidGeometry := ellipsoidGeometry, scratchOptions := so })

/-- SphereOutlineGeometry.createGeometry (lines 133-144): delegates to
the base ellipsoid createGeometry, abstracted as `ellipsoidCreate`. -/
def SphereOutlineGeometry.createGeometry {G : Type}
    (ellipsoidCreate : EllipsoidOutlineGeometry → Option G)
    (sphereGeometry : SphereOutlineGeometry) : Option G :=
  ellipsoidCreate sphereGeometry._ellipsoidGeometry

/-- First argument of the sphere worker entrypoint. -/
inductive PackedOrSphere where
  | desc (d : SphereOutlineGeometry)
  | packed (arr : List ℚ)

/-- The worker entrypoint createSphereOutlineGeometry (lines 140-145):
when offset is defined the first argument is unpacked at that offset,
then the shape's createGeometry produces the result. -/
def createSphereOutlineGeometry {G : Type}
    (ellipsoidCreate : EllipsoidOutlineGeometry → Option G) (s : SphereScratch)
    (sphereGeometry : PackedOrSphere) (offset : Option Nat) :
    Except CesiumError (Option G × SphereScratch) :=
  match offset, sphereGeometry with
  | some off, .packed arr =>
      (SphereOutlineGeometry.unpack s arr off none).map
        (fun p => (SphereOutlineGeometry.createGeometry ellipsoidCreate p.1, p.2))
  | none, .desc d =>
      .ok (SphereOutlineGeometry.createGeometry ellipsoidCreate d, s)
  | _, _ =>
      .error (.typeError "createSphereOutlineGeometry: argument does not match offset")

/-- The worker entrypoint createCylinderGeometry
(createCylinderGeometry.js lines 26-31).  The CylinderGeometry module is
not under src/; its unpack and createGeometry are abstracted as
parameters over the description type D.  When offset is defined the
first argument (a packed array) is unpacked at that offset; otherwise
the first argument is used directly; the result is the module's
createGeometry of that description. -/
def createCylinderGeometry {D G : Type}
    (unpackFn : List ℚ → Nat → D) (createFn : D → Option G)
    (cylinderGeometry : Sum D (List ℚ)) (offset : Option Nat) :
    Except CesiumError (Option G) :=
  match offset, cylinderGeometry with
  | some off, .inr arr => .ok (createFn (unpackFn arr off))
  | none, .inl d => .ok (createFn d)
  | _, _ =>
      .error (.typeError "createCylinderGeometry: argument does not match offset")

/-- EllipseGeometry description as far as the worker entrypoint touches
it: the cloned center and ellipsoid fields are concrete, the remaining
fields of the (missing) EllipseGeometry module are abstracted as `rest`. -/
structure EllipseGeometryDesc (R : Type) where
  _center : Cartesian3
  _ellipsoid : Ellipsoid
  rest : R

/-- The worker entrypoint createEllipseGeometry
(createEllipseGeometry.js lines 26-33): when offset is defined the first
argument is unpacked at that offset; the description's center and
ellipsoid are then re-cloned in place, and the module's createGeometry
produces the result.  The final description value is returned next to
the result to expose the mutation footprint. -/
def createEllipseGeometry {R G : Type}
    (unpackFn : List ℚ → Nat → EllipseGeometryDesc R)
    (createFn : EllipseGeometryDesc R → Option G)
    (ellipseGeometry : Sum (EllipseGeometryDesc R) (List ℚ)) (offset : Option Nat) :
    Except CesiumError (Option G × EllipseGeometryDesc R) :=
  match offset, ellipseGeometry with
  | some off, .inr arr =>
      let d := unpackFn arr off
      let d' := { d with _center := Cartesian3.clone d._center
                       , _ellipsoid := Ellipsoid.clone d._ellipsoid }
      .ok (createFn d', d')
  | none, .inl d =>
      let d' := { d with _center := Cartesian3.clone d._center
                       , _ellipsoid := Ellipsoid.clone d._ellipsoid }
      .ok (createFn d', d')
  | _, _ =>
      .error (.typeError "createEllipseGeometry: argument does not match offset")

/-- A worker module creation function as used by the batch dispatcher
(createGeometry.js): applied to a task's geometry payload and optional
offset, it either produces a value or raises a condition.  Geometry
payloads and results are untyped in JS and modelled by the parameter V. -/
def CreateFn (V : Type) : Type :=
  V → Option Nat → Except CesiumError V

/-- Environment of the dispatcher: `load` is the require-based load
mechanism for worker modules (outside src/), and `keyOf` is the JS
string conversion of a function value, which the buggy cache store uses
as property key in the AMD branch (`moduleCache[module] = f` runs after
`module = f`). -/
structure WorkerModuleEnv (V : Type) where
  load : String → CreateFn V
  keyOf : CreateFn V → String

/-- Read a property of a JS object with string keys. -/
def jsGet {A : Type} (o : List (String × A)) (k : String) : Option A :=
  (o.find? (fun p => p.1 = k)).map (fun p => p.2)

/-- Set a property of a JS object with string keys. -/
def jsSet {A : Type} (o : List (String × A)) (k : String) (v : A) : List (String × A) :=
  if (o.find? (fun p => p.1 = k)).isSome then
    o.map (fun p => if p.1 = k then (k, v) else p)
  else
    o ++ [(k, v)]

/-- Module-level mutable state of createGeometry.js: the moduleCache
object, plus an instrumentation counter of load-mechanism invocations
(the load-counter collaborator of spec testable property 7). -/
structure DispatchState (V : Type) where
  moduleCache : List (String × CreateFn V)
  loadCount : Nat

/-- The empty initial dispatcher state (`var moduleCache = \x7b\x7d`). -/
def initialDispatchState (V : Type) : DispatchState V :=
  { moduleCache := [], loadCount := 0 }

/-- getModule (createGeometry.js lines 28-46), AMD branch (the one taken
inside a web worker, where require is synchronous): looks up moduleName
in the cache; on a miss it invokes the load mechanism and stores the
loaded function under the property key `String(f)` — NOT under
moduleName — because the callback runs `module = f; moduleCache[module]
= f;` after `module` has been reassigned to the function value. -/
def getModule {V : Type} (env : WorkerModuleEnv V) (st : DispatchState V)
    (moduleName : String) : CreateFn V × DispatchState V :=
  match jsGet st.moduleCache moduleName with
  | some f => (f, st)
  | none =>
      let f := env.load moduleName
      (f, { moduleCache := jsSet st.moduleCache (env.keyOf f) f
          , loadCount := st.loadCount + 1 })

/-- What the intended getModule would have stored (the unbuilt source
stores `moduleCache[moduleName] = f`): used to state how the shipped
code diverges from its evident intent. -/
def getModuleIntended {V : Type} (env : WorkerModuleEnv V) (st : DispatchState V)
    (moduleName : String) : CreateFn V × DispatchState V :=
  match jsGet st.moduleCache moduleName with
  | some f => (f, st)
  | none =>
      let f := env.load moduleName
      (f, { moduleCache := jsSet st.moduleCache moduleName f
          , loadCount := st.loadCount + 1 })

/-- One sub-task of a dispatch batch (createGeometry.js lines 52-55):
a geometry payload, an optional module name and an optional offset. -/
structure SubTask (V : Type) where
  geometry : V
  moduleName : Option String
  offset : Option Nat

/-- The sub-task loop of createGeometry (createGeometry.js lines 53-66),
with the module cache threaded explicitly: slot i of the result array is
filled from task i; a task without moduleName passes its geometry
through unchanged; a task with a moduleName applies the function
resolved through getModule to (geometry, offset); a raised condition
aborts the loop and fails the whole batch. -/
def runSubTasks {V : Type} (env : WorkerModuleEnv V) :
    DispatchState V → List (SubTask V) → Except CesiumError (List V × DispatchState V)
  | st, [] => .ok ([], st)
  | st, t :: ts =>
      match t.moduleName with
      | none =>
          match runSubTasks env st ts with
          | .error e => .error e
          | .ok (rs, st') => .ok (t.geometry :: rs, st')
      | some m =>
          match (getModule env st m).1 t.geometry t.offset with
          | .error e => .error e
          | .ok r =>
              match runSubTasks env (getModule env st m).2 ts with
              | .error e => .error e
              | .ok (rs, st') => .ok (r :: rs, st')

/-- The batch entrypoint createGeometry (createGeometry.js lines 48-73):
runs every sub-task, then (only when all of them produced a value)
passes the ordered result list to
PrimitivePipeline.packCreateGeometryResults — outside src/, abstracted
as `packResults` — to build the manifest. -/
def createGeometryBatch {V M : Type} (env : WorkerModuleEnv V)
    (st : DispatchState V) (subTasks : List (SubTask V))
    (packResults : List V → M) : Except CesiumError (M × DispatchState V) :=
  match runSubTasks env st subTasks with
  | .error e => .error e
  | .ok (rs, st') => .ok (packResults rs, st')

/-- The value a single sub-task contributes, given the dispatcher state
at the moment the loop reaches it: pass-through for tasks without a
moduleName, otherwise the resolved creation function applied to
(geometry, offset). -/
def taskOutcome {V : Type} (env : WorkerModuleEnv V) (st : DispatchState V)
    (t : SubTask V) : Except CesiumError V :=
  match t.moduleName with
  | none => .ok t.geometry
  | some m => (getModule env st m).1 t.geometry t.offset

/-- The dispatcher state after the loop has processed one sub-task. -/
def stateAfterTask {V : Type} (env : WorkerModuleEnv V) (st : DispatchState V)
    (t : SubTask V) : DispatchState V :=
  match t.moduleName with
  | none => st
  | some m => (getModule env st m).2

/-- The dispatcher state after the loop has processed a list of sub-tasks. -/
def stateAfterTasks {V : Type} (env : WorkerModuleEnv V) :
    DispatchState V → List (SubTask V) → DispatchState V
  | st, [] => st
  | st, t :: ts => stateAfterTasks env (stateAfterTask env st t) ts

/-- Concrete circle options used to evaluate the round-trip at an input. -/
def optsW1 : CircleOptions :=
  { center := some { x := 1, y := 2, z := 3 }, radius := some 100000 }

/-- The description the constructor produces from optsW1. -/
def dW1 : CircleOutlineGeometry :=
  { _ellipseGeometry :=
      { _center := { x := 1, y := 2, z := 3 }
      , _semiMajorAxis := 100000
      , _semiMinorAxis := 100000
      , _ellipsoid := Ellipsoid.WGS84
      , _height := 0
      , _extrudedHeight := 0
      , _granularity := defaultGranularity
      , _numberOfVerticalLines := 16 }
  , _workerName := "createCircleOutlineGeometry" }

/-- Concrete circle options of the spec scenario: center (0,0,0), radius 100000. -/
def optsW5 : CircleOptions :=
  { center := some { x := 0, y := 0, z := 0 }, radius := some 100000 }

/-- The description the constructor produces from optsW5. -/
def dW5 : CircleOutlineGeometry :=
  { _ellipseGeometry :=
      { _center := { x := 0, y := 0, z := 0 }
      , _semiMajorAxis := 100000
      , _semiMinorAxis := 100000
      , _ellipsoid := Ellipsoid.WGS84
      , _height := 0
      , _extrudedHeight := 0
      , _granularity := defaultGranularity
      , _numberOfVerticalLines := 16 }
  , _workerName := "createCircleOutlineGeometry" }

/-- Concrete dispatcher environment: the loader returns a creation
function that increments its numeric payload; function values stringify
to a fixed source text. -/
def envW2 : WorkerModuleEnv Nat :=
  { load := fun _ => fun g _ => .ok (g + 1)
  , keyOf := fun _ => "function (createGeometry, offset)" }

/-- A concrete two-task batch: one module task and one pass-through task. -/
def tsW2 : List (SubTask Nat) :=
  [{ geometry := 5, moduleName := some "createCircleOutlineGeometry", offset := some 0 },
   { geometry := 7, moduleName := none, offset := none }]

/-- Dispatcher state after the first module load under envW2. -/
def stW2fin : DispatchState Nat :=
  { moduleCache := [("function (createGeometry, offset)", fun g _ => .ok (g + 1))]
  , loadCount := 1 }

/-- Concrete dispatcher environment whose creation function raises an
invalid-description condition on the payload 0. -/
def envW3 : WorkerModuleEnv Nat :=
  { load := fun _ => fun g _ =>
      if g = 0 then .error (.invalidArgument "invalid packed description")
      else .ok (g + 1)
  , keyOf := fun _ => "function (createGeometry, offset)" }

/-- First task of the three-task failure batch: a valid module task. -/
def tsW3a : List (SubTask Nat) :=
  [{ geometry := 5, moduleName := some "createCircleOutlineGeometry", offset := some 0 }]

/-- Second task of the three-task failure batch: its packed description
(payload 0) is invalid and makes the creation function raise. -/
def tW3bad : SubTask Nat :=
  { geometry := 0, moduleName := some "createCircleOutlineGeometry", offset := some 12 }

/-- Third task of the three-task failure batch: a pass-through task. -/
def tsW3c : List (SubTask Nat) :=
  [{ geometry := 7, moduleName := none, offset := none }]

/-- Dispatcher state after the first task of the failure batch. -/
def stW3mid : DispatchState Nat :=
  { moduleCache := [("function (createGeometry, offset)",
      fun g _ => if g = 0 then .error (.invalidArgument "invalid packed description")
                 else .ok (g + 1))]
  , loadCount := 1 }

/-- Concrete dispatcher environment for the module-cache observation. -/
def c4Env : WorkerModuleEnv Nat :=
  { load := fun _ => fun g _ => .ok (g + 1)
  , keyOf := fun _ => "function (createGeometry, offset)" }

/-- Dispatcher state after one getModule("createCircleOutlineGeometry")
call on a fresh worker. -/
def c4StateAfterFirst : DispatchState Nat :=
  (getModule c4Env (initialDispatchState Nat) "createCircleOutlineGeometry").2

/-- Inversion of the CircleOutlineGeometry constructor: a successful
construction forces radius and center to be present and determines every
field of the canonical base description. -/
theorem CircleOutlineGeometry.make_inv (opts : CircleOptions) (d : CircleOutlineGeometry)
    (hd : CircleOutlineGeometry.make (some opts) = .ok d) :
    ∃ (r : ℚ) (c : Cartesian3), opts.radius = some r ∧ opts.center = some c ∧
      d = { _ellipseGeometry :=
              { _center := c
              , _semiMajorAxis := r
              , _semiMinorAxis := r
              , _ellipsoid := opts.ellipsoid.getD Ellipsoid.WGS84
              , _height := opts.height.getD 0
              , _extrudedHeight := opts.extrudedHeight.getD 0
              , _granularity := opts.granularity.getD defaultGranularity
              , _numberOfVerticalLines := opts.numberOfVerticalLines.getD 16 }
          , _workerName := "createCircleOutlineGeometry" } := by
  cases hr : opts.radius with
  | none =>
      rw [CircleOutlineGeometry.make] at hd
      simp [hr] at hd
  | some r =>
      cases hc : opts.center with
      | none =>
          rw [CircleOutlineGeometry.make] at hd
          simp [hr, hc, EllipseOutlineGeometry.make, Except.map] at hd
      | some c =>
          rw [CircleOutlineGeometry.make] at hd
          simp [hr, hc, EllipseOutlineGeometry.make, Except.map] at hd
          exact ⟨r, c, rfl, rfl, by cases hd; rfl⟩

/-- C1: for every valid CircleOutlineGeometry description d (one the
constructor accepted), unpacking the result of packing d into a fresh
array at index 0 yields a description whose canonical base ellipse — the
record holding center, the two semi-axes, the ellipsoid radii, height,
extrudedHeight, granularity and numberOfVerticalLines, i.e. every field
createGeometry consumes — is equal to the one of d, the numeric values
round-tripping exactly; consequently createGeometry computes the same
output from both. -/
theorem circle_pack_unpack_roundtrip (opts : CircleOptions) (d : CircleOutlineGeometry)
    (hd : CircleOutlineGeometry.make (some opts) = .ok d) (s : CircleScratch) :
    ∃ p, CircleOutlineGeometry.unpack s (CircleOutlineGeometry.pack d [] 0) 0 none = .ok p ∧
      p.1._ellipseGeometry = d._ellipseGeometry ∧
      ∀ {G : Type} (ellipseCreate : EllipseOutlineGeometry → Option G),
        CircleOutlineGeometry.createGeometry ellipseCreate p.1 =
          CircleOutlineGeometry.createGeometry ellipseCreate d := by
  obtain ⟨r, c, hr, hc, rfl⟩ := CircleOutlineGeometry.make_inv opts d hd
  exact ⟨_, rfl, rfl, fun _ => rfl⟩

/-- Witness: the round-trip evaluated at center (1,2,3), radius 100000. -/
theorem circle_pack_unpack_roundtrip_witness :
    CircleOutlineGeometry.make (some optsW1) = .ok dW1 ∧
    (∃ p, CircleOutlineGeometry.unpack initialCircleScratch
        (CircleOutlineGeometry.pack dW1 [] 0) 0 none = .ok p ∧
      p.1._ellipseGeometry = dW1._ellipseGeometry ∧
      ∀ {G : Type} (ellipseCreate : EllipseOutlineGeometry → Option G),
        CircleOutlineGeometry.createGeometry ellipseCreate p.1 =
          CircleOutlineGeometry.createGeometry ellipseCreate dW1) :=
  ⟨rfl, circle_pack_unpack_roundtrip optsW1 dW1 rfl initialCircleScratch⟩

/-- C2: in a dispatched batch, result slot i always corresponds to task
i: when the loop completes, the result list has one slot per task, a
task without moduleName contributed its geometry unchanged at its own
position, a task with a moduleName contributed the value of its resolved
creation function applied to (geometry, offset) at its own position, and
the manifest handed to the result packer is built from exactly that
ordered list — no reordering occurs. -/
theorem dispatch_slot_correspondence {V : Type} (env : WorkerModuleEnv V) :
    ∀ (ts : List (SubTask V)) (st : DispatchState V) (rs : List V) (st' : DispatchState V),
      runSubTasks env st ts = .ok (rs, st') →
      rs.length = ts.length ∧
      (∀ (i : Nat) (hi : i < ts.length) (hr : i < rs.length),
        taskOutcome env (stateAfterTasks env st (ts.take i)) (ts.get ⟨i, hi⟩) =
          .ok (rs.get ⟨i, hr⟩)) ∧
      ∀ {M : Type} (packResults : List V → M),
        createGeometryBatch env st ts packResults = .ok (packResults rs, st') := by
  intro ts
  induction ts with
  | nil =>
      intro st rs st' h
      rw [runSubTasks] at h
      cases h
      exact ⟨rfl, fun i hi => absurd hi (Nat.not_lt_zero i),
        fun packResults => by rw [createGeometryBatch, runSubTasks]⟩
  | cons t ts ih =>
      intro st rs st' h
      have hbatch : ∀ {M : Type} (packResults : List V → M),
          createGeometryBatch env st (t :: ts) packResults = .ok (packResults rs, st') := by
        intro M packResults
        rw [createGeometryBatch, h]
      rw [runSubTasks] at h
      cases hm : t.moduleName with
      | none =>
          rw [hm] at h
          cases hrec : runSubTasks env st ts with
          | error e => rw [hrec] at h; cases h
          | ok p =>
              rw [hrec] at h
              cases h
              obtain ⟨hlen, hpt, _⟩ := ih st p.1 p.2 (by rw [hrec])
              refine ⟨by simp [hlen], ?_, hbatch⟩
              intro i hi hr
              cases i with
              | zero =>
                  simp [List.take, stateAfterTasks, taskOutcome, hm]
              | succ j =>
                  have hj : j < ts.length := Nat.lt_of_succ_lt_succ hi
                  have hjr : j < p.1.length := Nat.lt_of_succ_lt_succ hr
                  have := hpt j hj hjr
                  simpa [List.take, stateAfterTasks, stateAfterTask, hm] using this
      | some m =>
          rw [hm] at h
          dsimp only at h
          cases hf : (getModule env st m).1 t.geometry t.offset with
          | error e => rw [hf] at h; cases h
          | ok r =>
              rw [hf] at h
              cases hrec : runSubTasks env (getModule env st m).2 ts with
              | error e => rw [hrec] at h; cases h
              | ok p =>
                  rw [hrec] at h
                  cases h
                  obtain ⟨hlen, hpt, _⟩ := ih (getModule env st m).2 p.1 p.2 (by rw [hrec])
                  refine ⟨by simp [hlen], ?_, hbatch⟩
                  intro i hi hr
                  cases i with
                  | zero =>
                      simpa [List.take, stateAfterTasks, taskOutcome, hm] using hf
                  | succ j =>
                      have hj : j < ts.length := Nat.lt_of_succ_lt_succ hi
                      have hjr : j < p.1.length := Nat.lt_of_succ_lt_succ hr
                      have := hpt j hj hjr
                      simpa [List.take, stateAfterTasks, stateAfterTask, hm] using this

/-- Witness: a concrete batch of a module task followed by a
pass-through task: slot 0 holds the creation function's value for task
0, slot 1 holds task 1's geometry unchanged. -/
theorem dispatch_slot_correspondence_witness :
    runSubTasks envW2 (initialDispatchState Nat) tsW2 = .ok ([6, 7], stW2fin) ∧
    taskOutcome envW2 (stateAfterTasks envW2 (initialDispatchState Nat) (tsW2.take 0))
      (tsW2.get ⟨0, by decide⟩) = .ok 6 ∧
    taskOutcome envW2 (stateAfterTasks envW2 (initialDispatchState Nat) (tsW2.take 1))
      (tsW2.get ⟨1, by decide⟩) = .ok 7 :=
  ⟨rfl,
   (dispatch_slot_correspondence envW2 tsW2 (initialDispatchState Nat) [6, 7] stW2fin
      rfl).2.1 0 (by decide) (by decide),
   (dispatch_slot_correspondence envW2 tsW2 (initialDispatchState Nat) [6, 7] stW2fin
      rfl).2.1 1 (by decide) (by decide)⟩

/-- C3: if any single sub-task of a dispatched batch raises a condition
during creation (the tasks before it having succeeded), the whole batch
fails with that condition and the result packer is never applied: no
manifest, partial or otherwise, is produced, so the earlier and later
tasks are never reported as succeeded. -/
theorem dispatch_partial_failure_total {V : Type} (env : WorkerModuleEnv V) :
    ∀ (ts1 : List (SubTask V)) (st st1 : DispatchState V) (rs1 : List V)
      (t : SubTask V) (e : CesiumError) (ts2 : List (SubTask V)),
      runSubTasks env st ts1 = .ok (rs1, st1) →
      taskOutcome env st1 t = .error e →
      runSubTasks env st (ts1 ++ t :: ts2) = .error e ∧
      ∀ {M : Type} (packResults : List V → M),
        createGeometryBatch env st (ts1 ++ t :: ts2) packResults = .error e := by
  intro ts1 st st1 rs1 t e ts2 h herr
  have hrun : runSubTasks env st (ts1 ++ t :: ts2) = .error e := by
    induction ts1 generalizing st rs1 with
    | nil =>
        rw [runSubTasks] at h
        cases h
        rw [List.nil_append, runSubTasks]
        cases hm : t.moduleName with
        | none => simp [taskOutcome, hm] at herr
        | some m =>
            simp only [taskOutcome, hm] at herr
            dsimp only
            rw [herr]
    | cons a ts1 ih =>
        rw [runSubTasks] at h
        cases hm : a.moduleName with
        | none =>
            rw [hm] at h
            dsimp only at h
            cases hrec : runSubTasks env st ts1 with
            | error e2 => rw [hrec] at h; cases h
            | ok p =>
                rw [hrec] at h
                cases h
                rw [List.cons_append, runSubTasks, hm]
                dsimp only
                rw [ih st p.1 hrec]
        | some m =>
            rw [hm] at h
            dsimp only at h
            cases hf : (getModule env st m).1 a.geometry a.offset with
            | error e2 => rw [hf] at h; cases h
            | ok r =>
                rw [hf] at h
                cases hrec : runSubTasks env (getModule env st m).2 ts1 with
                | error e2 => rw [hrec] at h; cases h
                | ok p =>
                    rw [hrec] at h
                    cases h
                    rw [List.cons_append, runSubTasks, hm]
                    dsimp only
                    rw [hf]
                    dsimp only
                    rw [ih (getModule env st m).2 p.1 hrec]
  refine ⟨hrun, ?_⟩
  intro M packResults
  rw [createGeometryBatch, hrun]

/-- Witness: a concrete batch of 3 tasks whose second task carries an
invalid packed description: the whole batch fails with that condition
and no manifest is built, although tasks 1 and 3 are individually fine. -/
theorem dispatch_partial_failure_total_witness :
    runSubTasks envW3 (initialDispatchState Nat) tsW3a = .ok ([6], stW3mid) ∧
    taskOutcome envW3 stW3mid tW3bad = .error (.invalidArgument "invalid packed description") ∧
    runSubTasks envW3 (initialDispatchState Nat) (tsW3a ++ tW3bad :: tsW3c) =
      .error (.invalidArgument "invalid packed description") ∧
    createGeometryBatch envW3 (initialDispatchState Nat) (tsW3a ++ tW3bad :: tsW3c)
      (fun rs => rs) = .error (.invalidArgument "invalid packed description") :=
  ⟨rfl, rfl,
   (dispatch_partial_failure_total envW3 tsW3a (initialDispatchState Nat) stW3mid [6]
      tW3bad (.invalidArgument "invalid packed description") tsW3c rfl rfl).1,
   (dispatch_partial_failure_total envW3 tsW3a (initialDispatchState Nat) stW3mid [6]
      tW3bad (.invalidArgument "invalid packed description") tsW3c rfl rfl).2 (fun rs => rs)⟩

/-- C4 (code bug observation): after a first
getModule("createCircleOutlineGeometry") on a fresh worker the load
count is 1 but the cache holds nothing under the module name — the store
ran under the stringified function value instead — so a second call with
the same name misses the cache and re-invokes the load mechanism (load
count 2), contradicting the claimed idempotence; the intended store
under moduleName (as in the unbuilt source) makes the second call a
cache hit (load count stays 1). -/
theorem getModule_cache_never_hits :
    c4StateAfterFirst.loadCount = 1 ∧
    jsGet c4StateAfterFirst.moduleCache "createCircleOutlineGeometry" = none ∧
    (getModule c4Env c4StateAfterFirst "createCircleOutlineGeometry").2.loadCount = 2 ∧
    (getModuleIntended c4Env
      (getModuleIntended c4Env (initialDispatchState Nat) "createCircleOutlineGeometry").2
      "createCircleOutlineGeometry").2.loadCount = 1 :=
  ⟨rfl, rfl, rfl, rfl⟩

/-- C5: constructing a CircleOutlineGeometry with radius r derives its
canonical base description deterministically as an ellipse outline with
semiMajorAxis = semiMinorAxis = r, carrying over the supplied center,
ellipsoid, height, extrudedHeight, granularity and
numberOfVerticalLines (or their documented defaults), and the two
semi-axes still equal r after a pack/unpack cycle. -/
theorem circle_derives_ellipse_axes (opts : CircleOptions) (r : ℚ) (c : Cartesian3)
    (d : CircleOutlineGeometry) (hr : opts.radius = some r) (hc : opts.center = some c)
    (hd : CircleOutlineGeometry.make (some opts) = .ok d) :
    d._ellipseGeometry._semiMajorAxis = r ∧
    d._ellipseGeometry._semiMinorAxis = r ∧
    d._ellipseGeometry._center = c ∧
    d._ellipseGeometry._ellipsoid = opts.ellipsoid.getD Ellipsoid.WGS84 ∧
    d._ellipseGeometry._height = opts.height.getD 0 ∧
    d._ellipseGeometry._extrudedHeight = opts.extrudedHeight.getD 0 ∧
    d._ellipseGeometry._granularity = opts.granularity.getD defaultGranularity ∧
    d._ellipseGeometry._numberOfVerticalLines = opts.numberOfVerticalLines.getD 16 ∧
    ∀ s : CircleScratch, ∃ p,
      CircleOutlineGeometry.unpack s (CircleOutlineGeometry.pack d [] 0) 0 none = .ok p ∧
      p.1._ellipseGeometry._semiMajorAxis = r ∧
      p.1._ellipseGeometry._semiMinorAxis = r := by
  obtain ⟨r2, c2, hr2, hc2, rfl⟩ := CircleOutlineGeometry.make_inv opts d hd
  rw [hr] at hr2
  cases hr2
  rw [hc] at hc2
  cases hc2
  exact ⟨rfl, rfl, rfl, rfl, rfl, rfl, rfl, rfl, fun s => ⟨_, rfl, rfl, rfl⟩⟩

/-- Witness: the spec scenario center (0,0,0), radius 100000: the
derived canonical ellipse has both semi-axes 100000, also after the
pack/unpack cycle. -/
theorem circle_derives_ellipse_axes_witness :
    optsW5.radius = some 100000 ∧
    optsW5.center = some { x := 0, y := 0, z := 0 } ∧
    CircleOutlineGeometry.make (some optsW5) = .ok dW5 ∧
    dW5._ellipseGeometry._semiMajorAxis = 100000 ∧
    dW5._ellipseGeometry._semiMinorAxis = 100000 ∧
    (∃ p, CircleOutlineGeometry.unpack initialCircleScratch
        (CircleOutlineGeometry.pack dW5 [] 0) 0 none = .ok p ∧
      p.1._ellipseGeometry._semiMajorAxis = 100000 ∧
      p.1._ellipseGeometry._semiMinorAxis = 100000) :=
  ⟨rfl, rfl, rfl,
   (circle_derives_ellipse_axes optsW5 100000 { x := 0, y := 0, z := 0 } dW5 rfl rfl rfl).1,
   (circle_derives_ellipse_axes optsW5 100000 { x := 0, y := 0, z := 0 } dW5 rfl rfl rfl).2.1,
   (circle_derives_ellipse_axes optsW5 100000 { x := 0, y := 0, z := 0 } dW5 rfl rfl
      rfl).2.2.2.2.2.2.2.2 initialCircleScratch⟩

/-- C6: constructing a CircleOutlineGeometry without a radius fails with
the InvalidArgument condition of the radius type check, synchronously at
construction time — the constructor returns the condition itself, so no
packing or geometry computation is ever attempted; omitting the whole
options object fails the same way. -/
theorem circle_missing_radius_invalidArgument (opts : CircleOptions)
    (h : opts.radius = none) :
    CircleOutlineGeometry.make (some opts) = .error (.invalidArgument radiusRequiredMsg) ∧
    CircleOutlineGeometry.make none = .error (.invalidArgument radiusRequiredMsg) := by
  constructor
  · rw [CircleOutlineGeometry.make]
    simp [h]
  · rfl

/-- Witness: the empty options object has no radius and construction
fails with the InvalidArgument condition. -/
theorem circle_missing_radius_invalidArgument_witness :
    ({} : CircleOptions).radius = none ∧
    CircleOutlineGeometry.make (some ({} : CircleOptions)) =
      .error (.invalidArgument radiusRequiredMsg) ∧
    CircleOutlineGeometry.make none = .error (.invalidArgument radiusRequiredMsg) :=
  ⟨rfl, (circle_missing_radius_invalidArgument {} rfl).1,
   (circle_missing_radius_invalidArgument {} rfl).2⟩

/-- C7: every per-shape creation entrypoint treats its first argument as
a packed array to unpack at the given offset when offset is defined, and
as an already-constructed description when offset is undefined, and in
both cases returns the shape's createGeometry of the (unpacked or given)
description — shown for the cylinder, ellipse, sphere-outline and
circle-outline entrypoints. -/
theorem create_entrypoint_offset_dispatch {D R G : Type}
    (uf : List ℚ → Nat → D) (cf : D → Option G)
    (euf : List ℚ → Nat → EllipseGeometryDesc R) (ecf : EllipseGeometryDesc R → Option G)
    (gc : EllipsoidOutlineGeometry → Option G) (ec : EllipseOutlineGeometry → Option G)
    (arr : List ℚ) (off : Nat) (dcyl : D) (dell : EllipseGeometryDesc R)
    (dsph : SphereOutlineGeometry) (dcir : CircleOutlineGeometry)
    (ss : SphereScratch) (cs : CircleScratch) :
    createCylinderGeometry uf cf (.inr arr) (some off) = .ok (cf (uf arr off)) ∧
    createCylinderGeometry uf cf (.inl dcyl) none = .ok (cf dcyl) ∧
    createEllipseGeometry euf ecf (.inr arr) (some off) =
      .ok (ecf (euf arr off), euf arr off) ∧
    createEllipseGeometry euf ecf (.inl dell) none = .ok (ecf dell, dell) ∧
    createSphereOutlineGeometry gc ss (.packed arr) (some off) =
      (SphereOutlineGeometry.unpack ss arr off none).map
        (fun p => (SphereOutlineGeometry.createGeometry gc p.1, p.2)) ∧
    createSphereOutlineGeometry gc ss (.desc dsph) none =
      .ok (SphereOutlineGeometry.createGeometry gc dsph, ss) ∧
    createCircleOutlineGeometry ec cs (.packed arr) (some off) =
      (CircleOutlineGeometry.unpack cs arr off none).map
        (fun p => (CircleOutlineGeometry.createGeometry ec p.1, p.1, p.2)) ∧
    createCircleOutlineGeometry ec cs (.desc dcir) none =
      .ok (CircleOutlineGeometry.createGeometry ec dcir, dcir, cs) :=
  ⟨rfl, rfl, rfl, rfl, rfl, rfl, rfl, rfl⟩

/-- C8: the description a circle or sphere unpack call returns depends
only on the source array, the starting index and the optional result
argument: two calls with the same arguments but arbitrary different
incoming scratch states (in particular, the states left behind by any
earlier pack/unpack call sequences) return equal descriptions, because
every scratch field the construction reads is freshly overwritten within
the call. -/
theorem unpack_scratch_state_independent (s1 s2 : CircleScratch)
    (t1 t2 : SphereScratch) (arr : List ℚ) (start : Nat)
    (rc : CircleOutlineGeometry) (rs : SphereOutlineGeometry) :
    (CircleOutlineGeometry.unpack s1 arr start none).map Prod.fst =
      (CircleOutlineGeometry.unpack s2 arr start none).map Prod.fst ∧
    (CircleOutlineGeometry.unpack s1 arr start (some rc)).map Prod.fst =
      (CircleOutlineGeometry.unpack s2 arr start (some rc)).map Prod.fst ∧
    (SphereOutlineGeometry.unpack t1 arr start none).map Prod.fst =
      (SphereOutlineGeometry.unpack t2 arr start none).map Prod.fst ∧
    (SphereOutlineGeometry.unpack t1 arr start (some rs)).map Prod.fst =
      (SphereOutlineGeometry.unpack t2 arr start (some rs)).map Prod.fst :=
  ⟨rfl, rfl, rfl, rfl⟩

/-- C9: invoking a creation entrypoint on an already-constructed
description (offset undefined) returns the shape's createGeometry of
that description, leaves every field of the description and of its
canonical base description with the value it had before (the in-place
center/ellipsoid re-clones write back equal values), and touches no
shared scratch state — shown for the circle-outline, ellipse and
sphere-outline entrypoints. -/
theorem createGeometry_pure_frame {R G : Type}
    (ec : EllipseOutlineGeometry → Option G) (s : CircleScratch)
    (d : CircleOutlineGeometry)
    (ecf : EllipseGeometryDesc R → Option G)
    (euf : List ℚ → Nat → EllipseGeometryDesc R) (dell : EllipseGeometryDesc R)
    (gc : EllipsoidOutlineGeometry → Option G) (ss : SphereScratch)
    (dsph : SphereOutlineGeometry) :
    createCircleOutlineGeometry ec s (.desc d) none =
      .ok (CircleOutlineGeometry.createGeometry ec d, d, s) ∧
    createEllipseGeometry euf ecf (.inl dell) none = .ok (ecf dell, dell) ∧
    createSphereOutlineGeometry gc ss (.desc dsph) none =
      .ok (SphereOutlineGeometry.createGeometry gc dsph, ss) :=
  ⟨rfl, rfl, rfl⟩

/-- C10: the SphereOutlineGeometry constructor treats radius as
optional: with an options object lacking radius it succeeds and defaults
to the unit sphere radii (1,1,1); but it reads options.radius without
defaulting the options object itself, so invoking it with options
entirely absent fails with a TypeError instead of producing a default
sphere. -/
theorem sphere_radius_optional_options_required (o : SphereOptions)
    (h : o.radius = none) :
    (∃ sph, SphereOutlineGeometry.make (some o) = .ok sph ∧
       sph._ellipsoidGeometry._radii = { x := 1, y := 1, z := 1 }) ∧
    SphereOutlineGeometry.make none = .error (.typeError sphereOptionsUndefinedMsg) := by
  refine ⟨⟨_, rfl, ?_⟩, rfl⟩
  simp [EllipsoidOutlineGeometry.make, Cartesian3.clone, h]

/-- Witness: the empty sphere options construct a unit sphere, while the
absent options object fails. -/
theorem sphere_radius_optional_options_required_witness :
    ({} : SphereOptions).radius = none ∧
    (∃ sph, SphereOutlineGeometry.make (some ({} : SphereOptions)) = .ok sph ∧
       sph._ellipsoidGeometry._radii = { x := 1, y := 1, z := 1 }) ∧
    SphereOutlineGeometry.make none = .error (.typeError sphereOptionsUndefinedMsg) :=
  ⟨rfl, (sphere_radius_optional_options_required {} rfl).1,
   (sphere_radius_optional_options_required {} rfl).2⟩

end Cesium
